import Mathlib

/-!
Verification of the DisasterLink authorization and access-scoping engine.

The definitions below are a shallow embedding of the repository source:
the Supabase schema and migrations (row-level security policies and
plpgsql RPC functions) and the TypeScript service layer
(`barangay-assistance.ts`, `barangay-boundary.ts`, the barangay status
service and the map dashboard).  Ids (uuids) are modelled as `Nat`,
timestamps (`timestamptz`) as `Nat`, geojson payloads as opaque `Nat`
tokens, and nullable columns as `Option`.  Database tables are lists of
rows; RLS policies are boolean row predicates; SQL `count(*)` is
`List.countP`.
-/

set_option maxHeartbeats 1000000

namespace DisasterLink

/-- SQL TRIM / JS String.prototype.trim: strip leading and trailing
whitespace. -/
def trimChars (l : List Char) : List Char :=
  ((l.dropWhile Char.isWhitespace).reverse.dropWhile Char.isWhitespace).reverse

/-- Whitespace trim on strings, used wherever the source calls SQL
`TRIM(..)` or JS `.trim()`. -/
def sqlTrim (s : String) : String :=
  String.mk (trimChars s.toList)

/-- The `public.user_role` enum after the role-split migration added
`municipal_responder` and `barangay_responder` to the original four
values. -/
inductive Role where
  | resident
  | lgu_responder
  | barangay_responder
  | municipal_responder
  | admin
  | super_admin
deriving DecidableEq

/-- `role IN ('admin', 'super_admin')`, the escape hatch of most RLS
policies. -/
def Role.isAdminRole : Role → Bool
  | .admin => true
  | .super_admin => true
  | _ => false

/-- `public.current_user_is_lgu_type()`:
`role IN ('lgu_responder', 'municipal_responder', 'barangay_responder')`. -/
def Role.isLguType : Role → Bool
  | .lgu_responder => true
  | .municipal_responder => true
  | .barangay_responder => true
  | _ => false

/-- `public.report_status` enum. -/
inductive ReportStatus where
  | pending
  | acknowledged
  | resolved
deriving DecidableEq

/-- `public.barangay_status_enum` after the v2 migration replaced
`on_alert` and `under_threat`. -/
inductive BrgyStatus where
  | normal
  | in_need_of_resources
  | in_need_of_manpower
  | active_disaster
deriving DecidableEq

/-- Boundary request `status` column
(`CHECK (status IN ('pending', 'approved', 'rejected'))`). -/
inductive ReqStatus where
  | pending
  | approved
  | rejected
deriving DecidableEq

/-- Row of `public.barangays` (columns used by the claims). -/
structure Barangay where
  id : Nat
  municipalityId : Nat
  name : String
  boundaryGeojson : Option Nat
  boundaryApprovedAt : Option Nat
deriving DecidableEq

/-- Row of `public.profiles` (columns used by the claims). -/
structure Profile where
  id : Nat
  role : Role
  barangayId : Option Nat
  municipalityId : Option Nat
  proofOfEmploymentUrl : Option String
deriving DecidableEq

/-- Row of `auth.users` (columns used by `check_login_eligibility`). -/
structure AuthUser where
  id : Nat
  email : String
  emailConfirmedAt : Option Nat
deriving DecidableEq

/-- Row of `public.lgu_barangay_memberships`. -/
structure Membership where
  id : Nat
  profileId : Nat
  barangayId : Nat
  isCreator : Bool
  leftAt : Option Nat
deriving DecidableEq

/-- Row of `public.barangay_boundary_requests` after the contact-info
migration added `contact_email`, `contact_phone` and `description`. -/
structure BoundaryRequest where
  id : Nat
  requestedBy : Nat
  municipalityId : Nat
  barangayId : Option Nat
  barangayName : String
  boundaryGeojson : Nat
  contactEmail : Option String
  contactPhone : Option String
  description : Option String
  status : ReqStatus
  reviewedBy : Option Nat
  reviewedAt : Option Nat
  rejectionReason : Option String
deriving DecidableEq

/-- Row of `public.reports` (columns used by the visibility claims). -/
structure Report where
  id : Nat
  reporterId : Nat
  barangayId : Nat
  status : ReportStatus
deriving DecidableEq

/-- Row of `public.barangay_status_updates` (v2 columns). -/
structure StatusUpdate where
  id : Nat
  barangayId : Nat
  updatedBy : Nat
  status : BrgyStatus
  description : Option String
  createdAt : Nat
deriving DecidableEq

/-- Row of `public.barangay_assistance_offers` after the municipal
assistance migration made `helping_barangay_id` nullable and added
`helping_municipality_id`. -/
structure AssistanceOffer where
  id : Nat
  helpingBarangayId : Option Nat
  helpingMunicipalityId : Option Nat
  recipientBarangayId : Nat
  description : String
  deliveredAt : Option Nat
  createdBy : Nat
deriving DecidableEq

/-- The shared transactional store: every table the claims touch. -/
structure DB where
  authUsers : List AuthUser
  profiles : List Profile
  barangays : List Barangay
  memberships : List Membership
  boundaryRequests : List BoundaryRequest
  reports : List Report
  statusUpdates : List StatusUpdate
  assistanceOffers : List AssistanceOffer
deriving DecidableEq

/-- `public.current_user_role()`: the role of the profile row of
`auth.uid()`, or none when no profile exists. -/
def currentUserRole (db : DB) (uid : Nat) : Option Role :=
  (db.profiles.find? (fun p => p.id == uid)).map (fun p => p.role)

/-- `public.current_user_barangay_id()`. -/
def currentUserBarangayId (db : DB) (uid : Nat) : Option Nat :=
  (db.profiles.find? (fun p => p.id == uid)).bind (fun p => p.barangayId)

/-- `public.current_user_municipality_id()`. -/
def currentUserMunicipalityId (db : DB) (uid : Nat) : Option Nat :=
  (db.profiles.find? (fun p => p.id == uid)).bind (fun p => p.municipalityId)

/-- `public.current_user_is_lgu_type()` (COALESCE(..., false) form). -/
def currentUserIsLguType (db : DB) (uid : Nat) : Bool :=
  match currentUserRole db uid with
  | some r => r.isLguType
  | none => false

/-- SQL equality between two nullable values: true only when both are
non-null and equal (a comparison involving NULL is never true). -/
def sqlEqOpt (a b : Option Nat) : Bool :=
  match a, b with
  | some x, some y => x == y
  | _, _ => false

/-- `public.current_user_can_access_barangay(p_barangay_id)` from the
role-split migration: admins reach everything, barangay-scoped roles
need an exact barangay match, a municipal responder needs the barangay
to lie inside their municipality. -/
def currentUserCanAccessBarangay (db : DB) (uid : Nat) (pBarangayId : Option Nat) : Bool :=
  match db.profiles.find? (fun p => p.id == uid) with
  | none => false
  | some prof =>
    match pBarangayId with
    | none => false
    | some bid =>
      if prof.role.isAdminRole then true
      else if prof.role == Role.lgu_responder || prof.role == Role.barangay_responder then
        sqlEqOpt prof.barangayId (some bid)
      else if prof.role == Role.municipal_responder then
        db.barangays.any (fun b => b.id == bid && sqlEqOpt (some b.municipalityId) prof.municipalityId)
      else false

/-! ### Hazard report SELECT policies

RLS policies on one table combine by OR: a row is selectable when any
policy grants it.  The five SELECT policies on `public.reports` are the
original owner / scoped-LGU / admin / verified-any clauses plus the
later `reports_select_public` migration, which grants SELECT
unconditionally. -/

/-- Policy `reports_select_own`: `reporter_id = auth.uid()`. -/
def reports_select_own (uid : Nat) (r : Report) : Bool :=
  r.reporterId == uid

/-- Policy `reports_select_barangay_lgu` (role-split version):
LGU-type role with barangay access. -/
def reports_select_barangay_lgu (db : DB) (uid : Nat) (r : Report) : Bool :=
  currentUserIsLguType db uid && currentUserCanAccessBarangay db uid (some r.barangayId)

/-- Policy `reports_select_admin`. -/
def reports_select_admin (db : DB) (uid : Nat) : Bool :=
  match currentUserRole db uid with
  | some r => r.isAdminRole
  | none => false

/-- Policy `reports_select_verified_any`:
`status IN ('acknowledged', 'resolved')`. -/
def reports_select_verified_any (r : Report) : Bool :=
  r.status == ReportStatus.acknowledged || r.status == ReportStatus.resolved

/-- Policy `reports_select_public` (later migration): `USING (true)`. -/
def reports_select_public (_r : Report) : Bool :=
  true

/-- A report row is readable by an actor iff some SELECT policy on
`public.reports` grants it (policies OR together). -/
def canSelectReport (db : DB) (uid : Nat) (r : Report) : Bool :=
  reports_select_own uid r
  || reports_select_barangay_lgu db uid r
  || reports_select_admin db uid
  || reports_select_verified_any r
  || reports_select_public r

/-! ### Signup trigger and login-eligibility RPC -/

/-- `public.handle_new_user()` (final, role-split version), composed with
the `auth.users` insert that fires it.  For `municipal_responder` /
`barangay_responder` the geography metadata is copied onto the profile;
a `barangay_responder` with a barangay also gets an open membership row
(`is_creator = false`); and for every LGU-type role the trigger
immediately sets `email_confirmed_at = now()` on the auth user. -/
def handle_new_user (db : DB) (uid : Nat) (email : String) (role : Role)
    (munMeta bMeta : Option Nat) (proofUrl : Option String) (now memId : Nat) : DB :=
  let vMun := if role == Role.municipal_responder || role == Role.barangay_responder then munMeta else none
  let vB := if role == Role.municipal_responder || role == Role.barangay_responder then bMeta else none
  let user : AuthUser :=
    { id := uid, email := email
      emailConfirmedAt := if role.isLguType then some now else none }
  let prof : Profile :=
    { id := uid, role := role, barangayId := vB, municipalityId := vMun
      proofOfEmploymentUrl := proofUrl }
  let newMemberships :=
    match vB with
    | some b =>
      if role == Role.barangay_responder then
        [{ id := memId, profileId := uid, barangayId := b, isCreator := false, leftAt := none : Membership }]
      else []
    | none => []
  { db with
    authUsers := db.authUsers ++ [user]
    profiles := db.profiles ++ [prof]
    memberships := db.memberships ++ newMemberships }

/-- `public.check_login_eligibility(check_email)`: true (proof pending)
iff the auth user with that email joins a profile of responder role and
`proof_of_employment_url IS NOT NULL AND email_confirmed_at IS NULL`;
COALESCE makes every other case false. -/
def check_login_eligibility (db : DB) (checkEmail : String) : Bool :=
  match db.authUsers.find? (fun u => u.email == checkEmail) with
  | none => false
  | some u =>
    match db.profiles.find? (fun p => p.id == u.id) with
    | none => false
    | some p =>
      p.role.isLguType && p.proofOfEmploymentUrl != none && u.emailConfirmedAt == none

/-! ### Affiliation lifecycle RPCs -/

/-- SQL `count(*) FROM lgu_barangay_memberships WHERE profile_id = uid
AND left_at IS NULL`: the number of open membership rows of an actor. -/
def openCount (db : DB) (uid : Nat) : Nat :=
  db.memberships.countP (fun m => m.profileId == uid && m.leftAt == none)

/-- `public.join_barangay(p_barangay_id)` (role-split version): requires
an LGU-type role, refuses when the caller already has an open
membership, requires the target barangay to be approved and bounded;
then updates the denormalized profile fields and opens a membership
with `is_creator = false`.  (A caller without a profile row cannot
complete the insert and is modelled as failure.) -/
def join_barangay (db : DB) (uid pBarangayId : Nat) (memId : Nat) : Bool × DB :=
  match currentUserRole db uid with
  | none => (false, db)
  | some r =>
    if !r.isLguType then (false, db)
    else if db.memberships.any (fun m => m.profileId == uid && m.leftAt == none) then (false, db)
    else
      match db.barangays.find? (fun b =>
          b.id == pBarangayId && b.boundaryApprovedAt != none && b.boundaryGeojson != none) with
      | none => (false, db)
      | some b =>
        (true,
         { db with
           profiles := db.profiles.map (fun p =>
             if p.id == uid then
               { p with barangayId := some pBarangayId, municipalityId := some b.municipalityId }
             else p)
           memberships := db.memberships ++
             [{ id := memId, profileId := uid, barangayId := pBarangayId
                isCreator := false, leftAt := none }] })

/-- `public.leave_barangay(p_reason)` (role-split version): closes the
first open membership of the caller (`left_at = now()`) and clears the
profile affiliation fields. -/
def leave_barangay (db : DB) (uid now : Nat) : Bool × DB :=
  match currentUserRole db uid with
  | none => (false, db)
  | some r =>
    if !r.isLguType then (false, db)
    else
      match db.memberships.find? (fun m => m.profileId == uid && m.leftAt == none) with
      | none => (false, db)
      | some m =>
        (true,
         { db with
           memberships := db.memberships.map (fun x =>
             if x.id == m.id then { x with leftAt := some now } else x)
           profiles := db.profiles.map (fun p =>
             if p.id == uid then { p with barangayId := none, municipalityId := none } else p) })

/-! ### Boundary request RPCs and policies -/

/-- An Option String column is non-empty after TRIM
(`p IS NULL OR TRIM(p) = '' → fail`). -/
def sqlTrimNonEmpty (s : Option String) : Bool :=
  match s with
  | none => false
  | some v => sqlTrim v != ""

/-- `public.submit_barangay_boundary_request(...)` (final version with
contact columns): LGU-type role only; requires non-empty trimmed name,
non-null geojson, non-empty trimmed contact email and phone; inserts a
`pending` request.  (`NULLIF(p_barangay_id, zero-uuid)` is modelled by
taking the target barangay directly as an `Option Nat`.)  Returns the
new request id, or none on failure. -/
def submit_barangay_boundary_request (db : DB) (uid : Nat)
    (pMunicipalityId : Nat) (pBarangayId : Option Nat) (pBarangayName : String)
    (pBoundaryGeojson : Option Nat) (pContactEmail pContactPhone pDescription : Option String)
    (reqId : Nat) : Option Nat × DB :=
  if !currentUserIsLguType db uid then (none, db)
  else if sqlTrim pBarangayName == "" then (none, db)
  else
    match pBoundaryGeojson with
    | none => (none, db)
    | some geo =>
      if !sqlTrimNonEmpty pContactEmail then (none, db)
      else if !sqlTrimNonEmpty pContactPhone then (none, db)
      else
        (some reqId,
         { db with
           boundaryRequests := db.boundaryRequests ++
             [{ id := reqId, requestedBy := uid, municipalityId := pMunicipalityId
                barangayId := pBarangayId, barangayName := sqlTrim pBarangayName
                boundaryGeojson := geo
                contactEmail := (pContactEmail.map sqlTrim)
                contactPhone := (pContactPhone.map sqlTrim)
                description := (pDescription.map sqlTrim).bind (fun d => if d == "" then none else some d)
                status := ReqStatus.pending
                reviewedBy := none, reviewedAt := none, rejectionReason := none }] })

/-- `SELECT * FROM barangay_boundary_requests WHERE id = p AND
status = 'pending'`. -/
def findPendingRequest (db : DB) (reqId : Nat) : Option BoundaryRequest :=
  db.boundaryRequests.find? (fun q => q.id == reqId && q.status == ReqStatus.pending)

/-- The `v_can_approve` / `v_can_reject` computation shared by
`approve_barangay_boundary_request` and
`reject_barangay_boundary_request`, with SQL three-valued logic: a
scalar subquery with no row, or a comparison against a NULL
municipality, yields NULL (`none`); other roles yield false. -/
def reviewAuthority (db : DB) (uid reqId : Nat) : Option Bool :=
  match currentUserRole db uid with
  | some Role.admin => some true
  | some Role.super_admin => some true
  | some Role.municipal_responder =>
    match findPendingRequest db reqId with
    | none => none
    | some q =>
      match currentUserMunicipalityId db uid with
      | none => none
      | some m => some (q.municipalityId == m)
  | _ => some false

/-- plpgsql `IF NOT v THEN RETURN FALSE`: the early return fires only
when `v` is definitely false (a NULL condition is treated as
not-taken). -/
def reviewProceeds (v : Option Bool) : Bool :=
  v != some false

/-- The barangay the approval assigns: the existing target of the
request, or the freshly inserted one. -/
def approvedBarangayId (q : BoundaryRequest) (newBid : Nat) : Nat :=
  match q.barangayId with
  | some b => b
  | none => newBid

/-- The barangay upsert of a successful approval: update geometry and
approval timestamp of the existing target, or insert a fresh approved
barangay. -/
def upsertBarangays (db : DB) (q : BoundaryRequest) (now newBid : Nat) : List Barangay :=
  match q.barangayId with
  | some b =>
    db.barangays.map (fun x =>
      if x.id == b then
        { x with boundaryGeojson := some q.boundaryGeojson, boundaryApprovedAt := some now }
      else x)
  | none =>
    db.barangays ++
      [{ id := newBid, municipalityId := q.municipalityId, name := q.barangayName
         boundaryGeojson := some q.boundaryGeojson, boundaryApprovedAt := some now }]

/-- The side effects of a successful approval: upsert the barangay,
point the requester profile at it, open a creator membership, and mark
the request approved with reviewer and timestamp. -/
def applyApproval (db : DB) (q : BoundaryRequest) (uid now newBid newMemId : Nat) : DB :=
  { db with
    barangays := upsertBarangays db q now newBid
    profiles := db.profiles.map (fun p =>
      if p.id == q.requestedBy then
        { p with
          barangayId := some (approvedBarangayId q newBid)
          municipalityId := some q.municipalityId }
      else p)
    memberships := db.memberships ++
      [{ id := newMemId, profileId := q.requestedBy, barangayId := approvedBarangayId q newBid
         isCreator := true, leftAt := none }]
    boundaryRequests := db.boundaryRequests.map (fun x =>
      if x.id == q.id then
        { x with status := ReqStatus.approved, reviewedBy := some uid, reviewedAt := some now }
      else x) }

/-- `public.approve_barangay_boundary_request(p_request_id)` (municipal
approval version): authority check, then the row-locked re-read of the
pending request, then the approval side effects. -/
def approve_barangay_boundary_request (db : DB) (uid reqId now newBid newMemId : Nat) : Bool × DB :=
  if !reviewProceeds (reviewAuthority db uid reqId) then (false, db)
  else
    match findPendingRequest db reqId with
    | none => (false, db)
    | some q => (true, applyApproval db q uid now newBid newMemId)

/-- `public.reject_barangay_boundary_request(p_request_id, p_reason)`:
same authority as approve; marks the request rejected with the trimmed
reason and no geography mutation. -/
def reject_barangay_boundary_request (db : DB) (uid reqId : Nat) (reason : Option String) (now : Nat) : Bool × DB :=
  if !reviewProceeds (reviewAuthority db uid reqId) then (false, db)
  else
    match findPendingRequest db reqId with
    | none => (false, db)
    | some q =>
      (true,
       { db with
         boundaryRequests := db.boundaryRequests.map (fun x =>
           if x.id == q.id then
             { x with
               status := ReqStatus.rejected
               reviewedBy := some uid
               reviewedAt := some now
               rejectionReason :=
                 (if sqlTrim (reason.getD "") == "" then none else some (sqlTrim (reason.getD ""))) }
           else x) })

/-- Policy `barangay_boundary_requests_select_own`:
`requested_by = auth.uid()`. -/
def boundary_requests_select_own (uid : Nat) (q : BoundaryRequest) : Bool :=
  q.requestedBy == uid

/-- Policy `barangay_boundary_requests_select_admin`. -/
def boundary_requests_select_admin (db : DB) (uid : Nat) : Bool :=
  match currentUserRole db uid with
  | some r => r.isAdminRole
  | none => false

/-- Policy `barangay_boundary_requests_select_municipal`:
municipal responder whose municipality matches the request. -/
def boundary_requests_select_municipal (db : DB) (uid : Nat) (q : BoundaryRequest) : Bool :=
  (currentUserRole db uid == some Role.municipal_responder)
  && sqlEqOpt (some q.municipalityId) (currentUserMunicipalityId db uid)

/-- A boundary request row is readable iff some SELECT policy grants
it. -/
def canSelectBoundaryRequest (db : DB) (uid : Nat) (q : BoundaryRequest) : Bool :=
  boundary_requests_select_own uid q
  || boundary_requests_select_admin db uid
  || boundary_requests_select_municipal db uid q

/-! ### Barangay status updates (service layer) -/

/-- `NEED_STATUSES` membership for the v2 enum (the service also keeps
two legacy string statuses for old rows; the typed
`updateBarangayStatus` argument can only be a v2 value). -/
def isNeedStatus : BrgyStatus → Bool
  | .in_need_of_resources => true
  | .in_need_of_manpower => true
  | .active_disaster => true
  | .normal => false

/-- Fold step of the latest-row computation: keep the row with the
greater `created_at` (ties keep the earlier row; the source sorts
descending and takes the first, leaving ties to server order). -/
def pickLater (acc : Option StatusUpdate) (s : StatusUpdate) : Option StatusUpdate :=
  match acc with
  | none => some s
  | some a => if a.createdAt < s.createdAt then some s else some a

/-- The latest status row of a barangay, as `fetchBarangaysWithStatus`
computes it (order rows by `created_at` descending, keep the first per
barangay). -/
def latestStatusUpdate (l : List StatusUpdate) (bid : Nat) : Option StatusUpdate :=
  (l.filter (fun s => s.barangayId == bid)).foldl pickLater none

/-- The "current status" of a barangay: the status of its latest row,
defaulting to normal when it has none. -/
def currentStatus (db : DB) (bid : Nat) : BrgyStatus :=
  match latestStatusUpdate db.statusUpdates bid with
  | some s => s.status
  | none => BrgyStatus.normal

/-- `updateBarangayStatus` from the barangay status service: a need
status with a missing description, or one whose trimmed length is below
5 characters, is rejected before any insert; otherwise a fresh row is
appended (need statuses store the trimmed description, other statuses
store null). -/
def updateBarangayStatus (db : DB) (barangayId : Nat) (status : BrgyStatus)
    (description : Option String) (uid : Nat) (newId now : Nat) : Except String DB :=
  if isNeedStatus status &&
      (match description with
       | none => true
       | some d => decide ((sqlTrim d).length < 5)) then
    Except.error "Please provide a short description (at least 5 characters)."
  else
    Except.ok
      { db with
        statusUpdates := db.statusUpdates ++
          [{ id := newId, barangayId := barangayId, updatedBy := uid, status := status
             description :=
               (if isNeedStatus status then description.map sqlTrim else none)
             createdAt := now }] }

/-! ### Assistance offers (policies and service layer) -/

/-- Table constraint `no_self_assistance` (municipal version):
`(helping_barangay_id IS NULL OR helping_barangay_id != recipient)
AND (helping_barangay_id IS NOT NULL OR helping_municipality_id IS NOT
NULL)`. -/
def no_self_assistance (o : AssistanceOffer) : Bool :=
  (match o.helpingBarangayId with
   | none => true
   | some h => h != o.recipientBarangayId)
  && (o.helpingBarangayId != none || o.helpingMunicipalityId != none)

/-- INSERT policy `assistance_insert_lgu` (municipal assistance
version): a barangay-scoped responder inserting from their own barangay
to a different one, or a municipal responder inserting from their own
municipality with no helping barangay; always `created_by =
auth.uid()`. -/
def assistance_insert_lgu (db : DB) (uid : Nat) (o : AssistanceOffer) : Bool :=
  (o.createdBy == uid)
  && (((currentUserRole db uid == some Role.lgu_responder
        || currentUserRole db uid == some Role.barangay_responder)
       && sqlEqOpt o.helpingBarangayId (currentUserBarangayId db uid)
       && (match o.helpingBarangayId, o.recipientBarangayId with
           | some h, r => h != r
           | none, _ => false))
      || ((currentUserRole db uid == some Role.municipal_responder)
          && sqlEqOpt o.helpingMunicipalityId (currentUserMunicipalityId db uid)
          && o.helpingBarangayId == none))

/-- INSERT policy `assistance_insert_admin`. -/
def assistance_insert_admin (db : DB) (uid : Nat) (o : AssistanceOffer) : Bool :=
  (match currentUserRole db uid with
   | some r => r.isAdminRole
   | none => false)
  && o.createdBy == uid

/-- UPDATE policy `assistance_update_own` (municipal version): the
helping barangay responders, or the helping municipality responder, may
update the row. -/
def assistance_update_own (db : DB) (uid : Nat) (o : AssistanceOffer) : Bool :=
  ((currentUserRole db uid == some Role.lgu_responder
    || currentUserRole db uid == some Role.barangay_responder)
   && sqlEqOpt o.helpingBarangayId (currentUserBarangayId db uid))
  || ((currentUserRole db uid == some Role.municipal_responder)
      && sqlEqOpt o.helpingMunicipalityId (currentUserMunicipalityId db uid))

/-- Whether the service takes the municipal branch:
`profile.role === municipal_responder && !!profile.municipality_id`. -/
def takesMunicipalPath (db : DB) (uid : Nat) : Bool :=
  match db.profiles.find? (fun p => p.id == uid) with
  | none => false
  | some p => p.role == Role.municipal_responder && p.municipalityId != none

/-- The decision part of `createAssistanceOffer` from the assistance
service, composed with the store-side INSERT policies and the table
check constraint the insert must pass.  Validation order follows the
source: description of at least 3 trimmed characters, then the
municipal branch, else the own-barangay branch with the self-assistance
refusal, else the unassigned-geography refusal.  The profile fetch of
the source (`select barangay_id, municipality_id, role ... eq id
userId`) is the same lookup the `current_user_*` helpers perform.
Returns the row to insert, or the error. -/
def createAssistanceOfferRow (db : DB) (recipientBarangayId : Nat) (description : String)
    (userId : Nat) (newId : Nat) : Except String AssistanceOffer :=
  if (sqlTrim description).length < 3 then
    Except.error "Please describe the assistance (at least 3 characters)."
  else
    let checkInsert (o : AssistanceOffer) : Except String AssistanceOffer :=
      if (assistance_insert_lgu db userId o || assistance_insert_admin db userId o)
          && no_self_assistance o then
        Except.ok o
      else Except.error "new row violates row-level security policy"
    if takesMunicipalPath db userId && currentUserMunicipalityId db userId != none then
      checkInsert
        { id := newId, helpingBarangayId := none
          helpingMunicipalityId := currentUserMunicipalityId db userId
          recipientBarangayId := recipientBarangayId, description := sqlTrim description
          deliveredAt := none, createdBy := userId }
    else
      match currentUserBarangayId db userId with
      | some hb =>
        if hb == recipientBarangayId then
          Except.error "You cannot offer assistance to your own barangay."
        else
          checkInsert
            { id := newId, helpingBarangayId := some hb, helpingMunicipalityId := none
              recipientBarangayId := recipientBarangayId, description := sqlTrim description
              deliveredAt := none, createdBy := userId }
      | none => Except.error "Your barangay or municipality is not assigned. Contact admin."

/-- `createAssistanceOffer`: the decision above followed by the insert
of the accepted row. -/
def createAssistanceOffer (db : DB) (recipientBarangayId : Nat) (description : String)
    (userId : Nat) (newId : Nat) : Except String DB :=
  match createAssistanceOfferRow db recipientBarangayId description userId newId with
  | .error e => Except.error e
  | .ok o => Except.ok { db with assistanceOffers := db.assistanceOffers ++ [o] }

/-- `markAssistanceDelivered` from the assistance service: an
unconditional `UPDATE ... SET delivered_at = now() WHERE id = offerId`,
filtered row-by-row by the `assistance_update_own` policy. -/
def markAssistanceDelivered (db : DB) (uid offerId now : Nat) : DB :=
  { db with
    assistanceOffers := db.assistanceOffers.map (fun o =>
      if o.id == offerId && assistance_update_own db uid o then
        { o with deliveredAt := some now }
      else o) }

/-! ### Result projections and the UI contact validators -/

/-- Whether a service call succeeded. -/
def resultOk (r : Except String DB) : Bool :=
  match r with
  | .ok _ => true
  | .error _ => false

/-- The assistance offers of a successful result. -/
def offersOf (r : Except String DB) : Option (List AssistanceOffer) :=
  match r with
  | .ok d => some d.assistanceOffers
  | .error _ => none

/-- The current status of a barangay in a successful result. -/
def currentStatusOf (r : Except String DB) (bid : Nat) : Option BrgyStatus :=
  match r with
  | .ok d => some (currentStatus d bid)
  | .error _ => none

/-- Replace the status-update log of a store (used to state that an
operation never consults it). -/
def withStatusUpdates (db : DB) (su : List StatusUpdate) : DB :=
  { db with statusUpdates := su }

/-- Split a character list at every occurrence of a separator
character (the shape of the email regex match below). -/
def splitOnChar (c : Char) : List Char → List (List Char)
  | [] => [[]]
  | x :: xs =>
    let r := splitOnChar c xs
    if x == c then [] :: r
    else
      match r with
      | [] => [[x]]
      | y :: ys => (x :: y) :: ys

/-- A character admissible in the regex class written as
not-whitespace-and-not-at. -/
def emailAtomChar (c : Char) : Bool :=
  !(c.isWhitespace || c == '@')

/-- Whether a dot occurs strictly inside the list (neither first nor
last position). -/
def hasInteriorDot (l : List Char) : Bool :=
  ((l.drop 1).dropLast).contains '.'

/-- The email well-formedness test the map dashboard applies before a
boundary submission (the anchored regex: one atom, an at sign, an atom
containing a dot with material on both sides). -/
def isValidEmail (s : String) : Bool :=
  match splitOnChar '@' s.toList with
  | [a, b] => !a.isEmpty && a.all emailAtomChar && b.all emailAtomChar && hasInteriorDot b
  | _ => false

/-- The Philippine phone test the map dashboard applies before a
boundary submission: after removing whitespace and dashes, either
09 followed by nine digits, or +639 followed by nine digits. -/
def isValidPhPhone (s : String) : Bool :=
  let t := s.toList.filter (fun c => !(c.isWhitespace || c == '-'))
  (t.length == 11 && t.take 2 == ['0', '9'] && (t.drop 2).all Char.isDigit)
  || (t.length == 13 && t.take 4 == ['+', '6', '3', '9'] && (t.drop 4).all Char.isDigit)

/-! ### Concrete stores used to instantiate the claims -/

/-- The empty store. -/
def emptyDB : DB :=
  { authUsers := [], profiles := [], barangays := [], memberships := []
    boundaryRequests := [], reports := [], statusUpdates := [], assistanceOffers := [] }

/-- A store with an unaffiliated resident (actor 1) and a pending
report filed by actor 2 in barangay 10. -/
def c1db : DB :=
  { emptyDB with
    profiles := [{ id := 1, role := Role.resident, barangayId := none
                   municipalityId := none, proofOfEmploymentUrl := none }]
    reports := [{ id := 50, reporterId := 2, barangayId := 10, status := ReportStatus.pending }] }

/-- The pending report of `c1db`. -/
def c1report : Report :=
  { id := 50, reporterId := 2, barangayId := 10, status := ReportStatus.pending }

/-- A store with one bounded barangay and one admin, the starting point
of the double-membership trace. -/
def c2base : DB :=
  { emptyDB with
    barangays := [{ id := 10, municipalityId := 1, name := "Tubod"
                    boundaryGeojson := some 77, boundaryApprovedAt := some 1 }]
    authUsers := [{ id := 2, email := "admin@dl.ph", emailConfirmedAt := some 0 }]
    profiles := [{ id := 2, role := Role.admin, barangayId := none
                   municipalityId := none, proofOfEmploymentUrl := none }] }

/-- Actor 1 signs up as a barangay responder of barangay 10: the signup
trigger opens their first membership. -/
def c2afterSignup : DB :=
  handle_new_user c2base 1 "resp@dl.ph" Role.barangay_responder (some 1) (some 10) none 3 200

/-- Actor 1 then submits a boundary request (id 300) for a new
barangay. -/
def c2afterSubmit : DB :=
  (submit_barangay_boundary_request c2afterSignup 1 1 none "Sunog" (some 88)
    (some "cap@dl.ph") (some "09171234567") none 300).2

/-- A store with a barangay responder of barangay 10 whose proof of
employment is uploaded and unreviewed, created by the signup trigger. -/
def c3db : DB :=
  handle_new_user
    { emptyDB with
      barangays := [{ id := 10, municipalityId := 1, name := "Tubod"
                      boundaryGeojson := some 77, boundaryApprovedAt := some 1 }] }
    7 "resp@example.com" Role.barangay_responder (some 1) (some 10) (some "proof.png") 5 100

/-- A store with two bounded barangays; actor 8 is a responder of
barangay 1 and barangay 2 has current status normal. -/
def c4db : DB :=
  { emptyDB with
    barangays := [{ id := 1, municipalityId := 1, name := "Tunghaan"
                    boundaryGeojson := some 5, boundaryApprovedAt := some 1 },
                  { id := 2, municipalityId := 1, name := "Tubod"
                    boundaryGeojson := some 6, boundaryApprovedAt := some 1 }]
    profiles := [{ id := 8, role := Role.barangay_responder, barangayId := some 1
                   municipalityId := some 1, proofOfEmploymentUrl := none }]
    statusUpdates := [{ id := 400, barangayId := 2, updatedBy := 8
                        status := BrgyStatus.normal, description := none, createdAt := 9 }] }

/-- A store where responder 8 is affiliated with barangay 2 itself. -/
def c10db : DB :=
  { emptyDB with
    barangays := [{ id := 2, municipalityId := 1, name := "Tubod"
                    boundaryGeojson := some 6, boundaryApprovedAt := some 1 }]
    profiles := [{ id := 8, role := Role.barangay_responder, barangayId := some 2
                   municipalityId := some 1, proofOfEmploymentUrl := none }] }

/-- A store with a pending boundary request (id 300) by responder 1
and an admin (actor 2). -/
def c5db : DB :=
  { emptyDB with
    barangays := [{ id := 10, municipalityId := 1, name := "Tubod"
                    boundaryGeojson := none, boundaryApprovedAt := none }]
    profiles := [{ id := 2, role := Role.admin, barangayId := none
                   municipalityId := none, proofOfEmploymentUrl := none },
                 { id := 1, role := Role.barangay_responder, barangayId := none
                   municipalityId := none, proofOfEmploymentUrl := none }]
    boundaryRequests := [{ id := 300, requestedBy := 1, municipalityId := 1, barangayId := none
                           barangayName := "Sunog", boundaryGeojson := 88
                           contactEmail := some "cap@dl.ph", contactPhone := some "09171234567"
                           description := none, status := ReqStatus.pending
                           reviewedBy := none, reviewedAt := none, rejectionReason := none }] }

/-- A store with a municipal responder (actor 5, municipality 1), an
admin (actor 6), and a pending boundary request (id 7) in
municipality 1 submitted by responder 9. -/
def c6db : DB :=
  { emptyDB with
    profiles := [{ id := 5, role := Role.municipal_responder, barangayId := none
                   municipalityId := some 1, proofOfEmploymentUrl := none },
                 { id := 6, role := Role.admin, barangayId := none
                   municipalityId := none, proofOfEmploymentUrl := none },
                 { id := 9, role := Role.lgu_responder, barangayId := none
                   municipalityId := none, proofOfEmploymentUrl := none }]
    boundaryRequests := [{ id := 7, requestedBy := 9, municipalityId := 1, barangayId := none
                           barangayName := "Calajoan", boundaryGeojson := 70
                           contactEmail := some "cal@dl.ph", contactPhone := some "09181234567"
                           description := none, status := ReqStatus.pending
                           reviewedBy := none, reviewedAt := none, rejectionReason := none }] }

/-- The pending request of `c6db`. -/
def c6req : BoundaryRequest :=
  { id := 7, requestedBy := 9, municipalityId := 1, barangayId := none
    barangayName := "Calajoan", boundaryGeojson := 70
    contactEmail := some "cal@dl.ph", contactPhone := some "09181234567"
    description := none, status := ReqStatus.pending
    reviewedBy := none, reviewedAt := none, rejectionReason := none }

/-- A store where municipal responder 5 (municipality 1) submitted a
pending boundary request (id 7) for a different municipality (2). -/
def c6dbOwn : DB :=
  { emptyDB with
    profiles := [{ id := 5, role := Role.municipal_responder, barangayId := none
                   municipalityId := some 1, proofOfEmploymentUrl := none }]
    boundaryRequests := [{ id := 7, requestedBy := 5, municipalityId := 2, barangayId := none
                           barangayName := "Poblacion", boundaryGeojson := 71
                           contactEmail := some "pob@dl.ph", contactPhone := some "09191234567"
                           description := none, status := ReqStatus.pending
                           reviewedBy := none, reviewedAt := none, rejectionReason := none }] }

/-- The foreign-municipality request of `c6dbOwn`. -/
def c6reqOwn : BoundaryRequest :=
  { id := 7, requestedBy := 5, municipalityId := 2, barangayId := none
    barangayName := "Poblacion", boundaryGeojson := 71
    contactEmail := some "pob@dl.ph", contactPhone := some "09191234567"
    description := none, status := ReqStatus.pending
    reviewedBy := none, reviewedAt := none, rejectionReason := none }

/-- A store with an assistance offer (id 3), helping barangay 1,
already delivered at time 1, and a responder (actor 9) of the helping
barangay. -/
def c7db : DB :=
  { emptyDB with
    profiles := [{ id := 9, role := Role.barangay_responder, barangayId := some 1
                   municipalityId := some 1, proofOfEmploymentUrl := none }]
    assistanceOffers := [{ id := 3, helpingBarangayId := some 1, helpingMunicipalityId := none
                           recipientBarangayId := 2, description := "water"
                           deliveredAt := some 1, createdBy := 9 }] }

/-- The delivered offer of `c7db`. -/
def c7offer : AssistanceOffer :=
  { id := 3, helpingBarangayId := some 1, helpingMunicipalityId := none
    recipientBarangayId := 2, description := "water"
    deliveredAt := some 1, createdBy := 9 }

/-- A store with one barangay (id 2) whose status log has a single
normal row at time 3, for the status-gate witness. -/
def c8db : DB :=
  { emptyDB with
    barangays := [{ id := 2, municipalityId := 1, name := "Tubod"
                    boundaryGeojson := some 6, boundaryApprovedAt := some 1 }]
    profiles := [{ id := 9, role := Role.barangay_responder, barangayId := some 2
                   municipalityId := some 1, proofOfEmploymentUrl := none }]
    statusUpdates := [{ id := 410, barangayId := 2, updatedBy := 9
                        status := BrgyStatus.normal, description := none, createdAt := 3 }] }

/-- A store with a barangay responder (actor 3) and no requests, for
the boundary-submission claims. -/
def c9db : DB :=
  { emptyDB with
    profiles := [{ id := 3, role := Role.barangay_responder, barangayId := none
                   municipalityId := none, proofOfEmploymentUrl := none }] }

/-! ## Theorems -/

/-- Projection: replacing the status log leaves the decision part of
`createAssistanceOffer` untouched, because it reads only the profiles
table. -/
theorem createAssistanceOfferRow_withStatusUpdates (db : DB) (su : List StatusUpdate)
    (recipient : Nat) (d : String) (uid nid : Nat) :
    createAssistanceOfferRow (withStatusUpdates db su) recipient d uid nid
      = createAssistanceOfferRow db recipient d uid nid := rfl

/-- C1, counterexample: in `c1db` the unaffiliated resident actor 1 —
neither the reporter, nor a scoped responder, nor an admin — can read
the pending report, through the unconditional `reports_select_public`
policy. -/
theorem c1_counterexample :
    c1report.status = ReportStatus.pending
    ∧ c1report.reporterId ≠ 1
    ∧ currentUserRole c1db 1 = some Role.resident
    ∧ currentUserBarangayId c1db 1 = none
    ∧ currentUserMunicipalityId c1db 1 = none
    ∧ canSelectReport c1db 1 c1report = true := by
  decide

/-- C1 (amended): every hazard report row is readable by every actor in
every store state, whatever the report status, because the
`reports_select_public` policy grants SELECT unconditionally; in
particular acknowledged and resolved reports are and stay visible to
all. -/
theorem c1_reports_visible_to_everyone (db : DB) (uid : Nat) (r : Report) :
    canSelectReport db uid r = true := by
  simp [canSelectReport, reports_select_public]

/-- C3: evaluating the code at the failing input.  Immediately after a
barangay responder signs up with an uploaded, never admin-reviewed
proof of employment, `check_login_eligibility` already reports
not-pending, because `handle_new_user` set `email_confirmed_at` for the
responder at signup; the login gate therefore never blocks such an
account. -/
theorem c3_eligibility_never_pending :
    (c3db.profiles.find? (fun p => p.id == 7)).map (fun p => p.proofOfEmploymentUrl)
        = some (some "proof.png")
    ∧ (c3db.authUsers.find? (fun u => u.email == "resp@example.com")).map
          (fun u => u.emailConfirmedAt) = some (some 5)
    ∧ check_login_eligibility c3db "resp@example.com" = false := by
  decide

/-- C4, counterexample: in `c4db` the current status of recipient
barangay 2 is normal — not in the need set — yet `createAssistanceOffer`
succeeds and inserts the offer row. -/
theorem c4_counterexample :
    currentStatus c4db 2 = BrgyStatus.normal
    ∧ isNeedStatus (currentStatus c4db 2) = false
    ∧ resultOk (createAssistanceOffer c4db 2 "food packs" 8 500) = true
    ∧ offersOf (createAssistanceOffer c4db 2 "food packs" 8 500)
        = some [{ id := 500, helpingBarangayId := some 1, helpingMunicipalityId := none
                  recipientBarangayId := 2, description := "food packs"
                  deliveredAt := none, createdBy := 8 }] := by
  decide

/-- C4 (amended): `createAssistanceOffer` never consults the recipient
barangay status log: replacing the log by any other one changes neither
whether the call succeeds nor the resulting offers table.  The need-set
gate exists only in the map UI, which offers the assistance button only
for need-status barangays. -/
theorem c4_create_offer_ignores_status (db : DB) (su : List StatusUpdate)
    (recipient : Nat) (d : String) (uid nid : Nat) :
    resultOk (createAssistanceOffer (withStatusUpdates db su) recipient d uid nid)
      = resultOk (createAssistanceOffer db recipient d uid nid)
    ∧ offersOf (createAssistanceOffer (withStatusUpdates db su) recipient d uid nid)
      = offersOf (createAssistanceOffer db recipient d uid nid) := by
  unfold createAssistanceOffer
  rw [createAssistanceOfferRow_withStatusUpdates]
  cases createAssistanceOfferRow db recipient d uid nid <;>
    simp [resultOk, offersOf, withStatusUpdates]

/-- C10: an assistance offer whose helping geography is the recipient
barangay itself is rejected by `createAssistanceOffer` with a
validation error and no row is created: whenever the caller is not on
the municipal branch and their assigned barangay equals the recipient,
the call fails. -/
theorem c10_self_assistance_rejected (db : DB) (recipient : Nat) (d : String) (uid nid : Nat)
    (hMun : takesMunicipalPath db uid = false)
    (hB : currentUserBarangayId db uid = some recipient) :
    resultOk (createAssistanceOffer db recipient d uid nid) = false := by
  unfold createAssistanceOffer createAssistanceOfferRow
  rw [hMun, hB]
  simp only [Bool.false_and, Bool.false_eq_true, if_false, beq_self_eq_true, if_true]
  split
  · rfl
  · next o heq =>
      split at heq <;> simp_all

/-- C10, witness: responder 8 of barangay 2 offering assistance to
barangay 2 itself is refused. -/
theorem c10_witness :
    takesMunicipalPath c10db 8 = false
    ∧ currentUserBarangayId c10db 8 = some 2
    ∧ resultOk (createAssistanceOffer c10db 2 "food packs" 8 501) = false :=
  ⟨by decide, by decide,
   c10_self_assistance_rejected c10db 2 "food packs" 8 501 (by decide) (by decide)⟩

/-- Mapping a function that can only break the predicate never
increases a `countP`. -/
theorem countP_map_le {α : Type} (f : α → α) (p : α → Bool) (l : List α)
    (h : ∀ a, p (f a) = true → p a = true) :
    (l.map f).countP p ≤ l.countP p := by
  induction l with
  | nil => simp
  | cons x xs ih =>
    simp only [List.map_cons, List.countP_cons]
    by_cases hx : p (f x) = true
    · rw [if_pos hx, if_pos (h x hx)]
      omega
    · rw [if_neg hx]
      split <;> omega

/-- A list none of whose members satisfies the predicate counts zero. -/
theorem countP_eq_zero_of_any_false {α : Type} (p : α → Bool) (l : List α)
    (h : l.any p = false) : l.countP p = 0 := by
  induction l with
  | nil => simp
  | cons x xs ih =>
    simp only [List.any_cons, Bool.or_eq_false_iff] at h
    simp [List.countP_cons, h.1, ih h.2]

/-- C2, counterexample: actor 1 signed up as a barangay responder (one
open membership) and then submitted a boundary request; the admin
approval opens a second membership without checking, so actor 1 ends
with two open membership rows. -/
theorem c2_counterexample :
    openCount c2afterSubmit 1 = 1
    ∧ (approve_barangay_boundary_request c2afterSubmit 2 300 4 11 201).1 = true
    ∧ openCount (approve_barangay_boundary_request c2afterSubmit 2 300 4 11 201).2 1 = 2 := by
  decide

/-- Shape of the membership table after `join_barangay`: either the
call fails and the table is unchanged, or the caller had no open
membership and exactly the fresh open row was appended. -/
theorem join_memberships (db : DB) (uid bid memId : Nat) :
    ((join_barangay db uid bid memId).1 = false
      ∧ (join_barangay db uid bid memId).2.memberships = db.memberships)
    ∨ ((join_barangay db uid bid memId).1 = true
      ∧ db.memberships.any (fun m => m.profileId == uid && m.leftAt == none) = false
      ∧ (join_barangay db uid bid memId).2.memberships
          = db.memberships ++
            [{ id := memId, profileId := uid, barangayId := bid, isCreator := false, leftAt := none }]) := by
  unfold join_barangay
  cases currentUserRole db uid with
  | none => exact Or.inl ⟨rfl, rfl⟩
  | some r =>
    dsimp only
    by_cases h1 : (!r.isLguType) = true
    · rw [if_pos h1]; exact Or.inl ⟨rfl, rfl⟩
    · rw [if_neg h1]
      by_cases h2 : (db.memberships.any (fun m => m.profileId == uid && m.leftAt == none)) = true
      · rw [if_pos h2]; exact Or.inl ⟨rfl, rfl⟩
      · rw [if_neg h2]
        cases db.barangays.find? (fun b =>
            b.id == bid && b.boundaryApprovedAt != none && b.boundaryGeojson != none) with
        | none => exact Or.inl ⟨rfl, rfl⟩
        | some b =>
          refine Or.inr ⟨rfl, ?_, rfl⟩
          revert h2
          cases db.memberships.any (fun m => m.profileId == uid && m.leftAt == none) <;> simp

/-- Shape of the membership table after `leave_barangay`: unchanged, or
the pointwise close of one membership id. -/
theorem leave_memberships (db : DB) (uid now : Nat) :
    (leave_barangay db uid now).2.memberships = db.memberships
    ∨ ∃ m : Membership, (leave_barangay db uid now).2.memberships
        = db.memberships.map (fun x => if x.id == m.id then { x with leftAt := some now } else x) := by
  unfold leave_barangay
  cases currentUserRole db uid with
  | none => exact Or.inl rfl
  | some r =>
    dsimp only
    by_cases h1 : (!r.isLguType) = true
    · rw [if_pos h1]; exact Or.inl rfl
    · rw [if_neg h1]
      cases db.memberships.find? (fun m => m.profileId == uid && m.leftAt == none) with
      | none => exact Or.inl rfl
      | some m => exact Or.inr ⟨m, rfl⟩

/-- C2 (amended): `join_barangay` does check-and-set the single open
membership condition — it opens a membership only when the actor has
none, so it preserves `openCount ≤ 1` — and `leave_barangay` only
closes rows, also preserving it; `approve_barangay_boundary_request`
however opens a membership for the requester without any such check and
can produce a second concurrent membership. -/
theorem c2_join_leave_preserve_single_open (db : DB) (uid bid memId now : Nat)
    (h : openCount db uid ≤ 1) :
    openCount (join_barangay db uid bid memId).2 uid ≤ 1
    ∧ ((join_barangay db uid bid memId).1 = true → openCount db uid = 0)
    ∧ openCount (leave_barangay db uid now).2 uid ≤ 1 := by
  refine ⟨?_, ?_, ?_⟩
  · rcases join_memberships db uid bid memId with ⟨_, heq⟩ | ⟨_, hany, heq⟩
    · simpa only [openCount, heq] using h
    · have hz := countP_eq_zero_of_any_false _ _ hany
      simp [openCount, heq, List.countP_append, List.countP_cons, hz]
  · intro hT
    rcases join_memberships db uid bid memId with ⟨hf, _⟩ | ⟨_, hany, _⟩
    · rw [hT] at hf; exact absurd hf (by simp)
    · exact countP_eq_zero_of_any_false _ _ hany
  · rcases leave_memberships db uid now with heq | ⟨m, heq⟩
    · simpa only [openCount, heq] using h
    · refine le_trans ?_ h
      simp only [openCount, heq]
      refine countP_map_le _ _ _ ?_
      intro a ha
      by_cases hid : (a.id == m.id) = true
      · rw [if_pos hid] at ha
        simp at ha
      · rwa [if_neg hid] at ha

/-- After an approval every request row carrying the approved id has
status approved, so the pending re-read finds nothing. -/
theorem findPending_after_approval (db : DB) (q : BoundaryRequest)
    (uid now newBid newMemId reqId : Nat) (hq : q.id = reqId) :
    findPendingRequest (applyApproval db q uid now newBid newMemId) reqId = none := by
  unfold findPendingRequest applyApproval
  rw [List.find?_eq_none]
  intro x hx
  simp only [List.mem_map] at hx
  obtain ⟨y, _, hgy⟩ := hx
  by_cases hid : (y.id == q.id) = true
  · rw [if_pos hid] at hgy
    rw [← hgy]
    simp
  · rw [if_neg hid] at hgy
    rw [← hgy]
    have hfid : (y.id == reqId) = false := by
      rw [← hq]
      revert hid
      cases y.id == q.id <;> simp
    simp [hfid]

/-- A review operation on an id with no pending row fails and leaves
the store unchanged, whoever the caller is. -/
theorem review_ops_noop_when_no_pending (db : DB) (uid reqId t nb nm : Nat) (reason : Option String)
    (hnone : findPendingRequest db reqId = none) :
    approve_barangay_boundary_request db uid reqId t nb nm = (false, db)
    ∧ reject_barangay_boundary_request db uid reqId reason t = (false, db) := by
  constructor
  · unfold approve_barangay_boundary_request
    split
    · rfl
    · rw [hnone]
  · unfold reject_barangay_boundary_request
    split
    · rfl
    · rw [hnone]

/-- An authorized approval of a pending request returns true and the
approval side effects. -/
theorem approve_eq_of (db : DB) (uid reqId t nb nm : Nat) (q : BoundaryRequest)
    (h1 : reviewProceeds (reviewAuthority db uid reqId) = true)
    (h2 : findPendingRequest db reqId = some q) :
    approve_barangay_boundary_request db uid reqId t nb nm
      = (true, applyApproval db q uid t nb nm) := by
  unfold approve_barangay_boundary_request
  simp [h1, h2]

/-- An authorized rejection of a pending request returns true. -/
theorem reject_fst_of (db : DB) (uid reqId t : Nat) (reason : Option String) (q : BoundaryRequest)
    (h1 : reviewProceeds (reviewAuthority db uid reqId) = true)
    (h2 : findPendingRequest db reqId = some q) :
    (reject_barangay_boundary_request db uid reqId reason t).1 = true := by
  unfold reject_barangay_boundary_request
  simp [h1, h2]

/-- A denied review fails and leaves the store unchanged. -/
theorem review_ops_fail_of_denied (db : DB) (uid reqId t nb nm : Nat) (reason : Option String)
    (h : reviewProceeds (reviewAuthority db uid reqId) = false) :
    approve_barangay_boundary_request db uid reqId t nb nm = (false, db)
    ∧ reject_barangay_boundary_request db uid reqId reason t = (false, db) := by
  constructor
  · unfold approve_barangay_boundary_request
    simp [h]
  · unfold reject_barangay_boundary_request
    simp [h]

/-- C5: a boundary request can be approved at most once, and a request
that is no longer pending can be neither approved nor rejected: after a
successful approval, a second approve and a reject on the same id both
return false and leave the store exactly as the first call left it, so
the barangay geometry, the requester affiliation and the membership
side effects are applied exactly once. -/
theorem c5_second_review_fails (db : DB) (a a2 reqId t t2 nb nm nb2 nm2 : Nat) (r2 : Option String)
    (h : (approve_barangay_boundary_request db a reqId t nb nm).1 = true) :
    approve_barangay_boundary_request (approve_barangay_boundary_request db a reqId t nb nm).2
        a2 reqId t2 nb2 nm2
      = (false, (approve_barangay_boundary_request db a reqId t nb nm).2)
    ∧ reject_barangay_boundary_request (approve_barangay_boundary_request db a reqId t nb nm).2
        a2 reqId r2 t2
      = (false, (approve_barangay_boundary_request db a reqId t nb nm).2) := by
  by_cases hp : reviewProceeds (reviewAuthority db a reqId) = true
  · cases hfind : findPendingRequest db reqId with
    | none =>
      rw [(review_ops_noop_when_no_pending db a reqId t nb nm none hfind).1] at h
      simp at h
    | some q =>
      have heq := approve_eq_of db a reqId t nb nm q hp hfind
      have hqid : q.id = reqId := by
        have hpq := List.find?_some hfind
        simp only [Bool.and_eq_true, beq_iff_eq] at hpq
        exact hpq.1
      rw [heq]
      exact review_ops_noop_when_no_pending _ a2 reqId t2 nb2 nm2 r2
        (findPending_after_approval db q a t nb nm reqId hqid)
  · have hp2 : reviewProceeds (reviewAuthority db a reqId) = false := by
      revert hp
      cases reviewProceeds (reviewAuthority db a reqId) <;> simp
    unfold approve_barangay_boundary_request at h
    rw [hp2] at h
    simp at h

/-- C5, witness: the admin approves request 300 of `c5db`; the second
approval attempt fails and changes nothing. -/
theorem c5_witness :
    (approve_barangay_boundary_request c5db 2 300 1 11 201).1 = true
    ∧ approve_barangay_boundary_request (approve_barangay_boundary_request c5db 2 300 1 11 201).2
        2 300 5 12 202
      = (false, (approve_barangay_boundary_request c5db 2 300 1 11 201).2) :=
  ⟨by decide, (c5_second_review_fails c5db 2 2 300 1 5 11 201 12 202 none (by decide)).1⟩

/-- C2, witness: after the signup of responder 1 (one open
membership), a join attempt cannot raise the open count above one. -/
theorem c2_amended_witness :
    openCount c2afterSignup 1 ≤ 1
    ∧ openCount (join_barangay c2afterSignup 1 10 777).2 1 ≤ 1 :=
  ⟨by decide, (c2_join_leave_preserve_single_open c2afterSignup 1 10 777 0 (by decide)).1⟩

/-- C6, counterexample: in `c6dbOwn` the municipal responder 5 is
scoped to municipality 1, yet can read the pending boundary request of
municipality 2 — because responder 5 submitted it and the
requester-self-access policy grants the read. -/
theorem c6_counterexample :
    currentUserRole c6dbOwn 5 = some Role.municipal_responder
    ∧ currentUserMunicipalityId c6dbOwn 5 = some 1
    ∧ c6reqOwn.municipalityId = 2
    ∧ c6reqOwn ∈ c6dbOwn.boundaryRequests
    ∧ canSelectBoundaryRequest c6dbOwn 5 c6reqOwn = true := by
  decide

/-- C6 (amended): a municipal_responder can approve or reject exactly
the pending boundary requests of their own municipality; their
role-based read is likewise exactly their own municipality, though like
any actor they can additionally read requests they submitted themselves
(requester self-access); admin and super_admin can approve, reject and
read any pending request whatever its municipality. -/
theorem c6_review_scope (db : DB) (uid uidA reqId t nb nm M : Nat) (q : BoundaryRequest)
    (reason : Option String) :
    (currentUserRole db uid = some Role.municipal_responder →
     currentUserMunicipalityId db uid = some M →
     findPendingRequest db reqId = some q →
       (((approve_barangay_boundary_request db uid reqId t nb nm).1 = true) ↔ q.municipalityId = M)
       ∧ (((reject_barangay_boundary_request db uid reqId reason t).1 = true) ↔ q.municipalityId = M)
       ∧ (q.requestedBy ≠ uid →
            (canSelectBoundaryRequest db uid q = true ↔ q.municipalityId = M)))
    ∧ ((currentUserRole db uidA = some Role.admin ∨ currentUserRole db uidA = some Role.super_admin) →
       findPendingRequest db reqId = some q →
         (approve_barangay_boundary_request db uidA reqId t nb nm).1 = true
         ∧ (reject_barangay_boundary_request db uidA reqId reason t).1 = true
         ∧ canSelectBoundaryRequest db uidA q = true) := by
  constructor
  · intro hrole hmun hfind
    have hauth : reviewAuthority db uid reqId = some (q.municipalityId == M) := by
      simp only [reviewAuthority, hrole, hfind, hmun]
    by_cases hqm : q.municipalityId = M
    · have hqmb : (q.municipalityId == M) = true := by simp [hqm]
      have hp : reviewProceeds (reviewAuthority db uid reqId) = true := by
        rw [hauth, hqmb]; decide
      refine ⟨⟨fun _ => hqm, fun _ => ?_⟩, ⟨fun _ => hqm, fun _ => ?_⟩, ?_⟩
      · rw [approve_eq_of db uid reqId t nb nm q hp hfind]
      · exact reject_fst_of db uid reqId t reason q hp hfind
      · intro _
        refine ⟨fun _ => hqm, fun _ => ?_⟩
        simp [canSelectBoundaryRequest, boundary_requests_select_municipal, hrole, hmun,
          sqlEqOpt, hqm]
    · have hqmb : (q.municipalityId == M) = false := by simp [hqm]
      have hp : reviewProceeds (reviewAuthority db uid reqId) = false := by
        rw [hauth, hqmb]; decide
      have hfail := review_ops_fail_of_denied db uid reqId t nb nm reason hp
      refine ⟨?_, ?_, ?_⟩
      · rw [hfail.1]
        simp [hqm]
      · rw [hfail.2]
        simp [hqm]
      · intro hreq
        have hsel : canSelectBoundaryRequest db uid q = false := by
          simp [canSelectBoundaryRequest, boundary_requests_select_own,
            boundary_requests_select_admin, boundary_requests_select_municipal,
            hrole, hmun, sqlEqOpt, hqm, hreq, Role.isAdminRole]
        rw [hsel]
        simp [hqm]
  · intro hadm hfind
    have hauth : reviewAuthority db uidA reqId = some true := by
      rcases hadm with h | h <;> simp only [reviewAuthority, h]
    have hp : reviewProceeds (reviewAuthority db uidA reqId) = true := by
      rw [hauth]; decide
    refine ⟨?_, ?_, ?_⟩
    · rw [approve_eq_of db uidA reqId t nb nm q hp hfind]
    · exact reject_fst_of db uidA reqId t reason q hp hfind
    · rcases hadm with h | h <;>
        simp [canSelectBoundaryRequest, boundary_requests_select_admin, h, Role.isAdminRole]

/-- C6, witness: in `c6db` the scoped municipal responder 5 approves
request 7 of their own municipality, the admin 6 can reject it, and
responder 5 can read it. -/
theorem c6_witness :
    (approve_barangay_boundary_request c6db 5 7 0 90 91).1 = true
    ∧ (reject_barangay_boundary_request c6db 6 7 none 0).1 = true
    ∧ canSelectBoundaryRequest c6db 5 c6req = true := by
  have h := c6_review_scope c6db 5 6 7 0 90 91 1 c6req none
  exact ⟨((h.1 rfl rfl rfl).1).mpr rfl, (h.2 (Or.inl rfl) rfl).2.1,
         ((h.1 rfl rfl rfl).2.2 (by decide)).mpr rfl⟩

/-- Mapping a function that fixes every member of a list is the
identity on it. -/
theorem map_eq_self_of_eq {α : Type} (f : α → α) (l : List α) (h : ∀ a ∈ l, f a = a) :
    l.map f = l := by
  induction l with
  | nil => rfl
  | cons x xs ih =>
    simp only [List.map_cons]
    rw [h x (by simp), ih (fun a ha => h a (by simp [ha]))]

/-- C7, counterexample: offer 3 of `c7db` was already delivered at
time 1; the helping responder 9 calls `markAssistanceDelivered` again
at time 2 and the timestamp is overwritten — `deliveredAt` is not
set-once. -/
theorem c7_counterexample :
    c7offer ∈ c7db.assistanceOffers
    ∧ c7offer.deliveredAt = some 1
    ∧ (markAssistanceDelivered c7db 9 3 2).assistanceOffers
        = [{ c7offer with deliveredAt := some 2 }]
    ∧ (some 2 : Option Nat) ≠ some 1 := by
  decide

/-- C7 (amended): only the helping party can change `deliveredAt` — an
actor whom the `assistance_update_own` policy denies on every row of
that offer id leaves the store untouched — but the field is not
set-once: every authorized `markAssistanceDelivered` call overwrites
`deliveredAt` with the current time, delivered or not. -/
theorem c7_delivered_update_scope (db : DB) (uid offerId now : Nat) :
    ((∀ o ∈ db.assistanceOffers, o.id = offerId → assistance_update_own db uid o = false) →
      markAssistanceDelivered db uid offerId now = db)
    ∧ (∀ o ∈ db.assistanceOffers, o.id = offerId → assistance_update_own db uid o = true →
        { o with deliveredAt := some now } ∈ (markAssistanceDelivered db uid offerId now).assistanceOffers) := by
  constructor
  · intro hnone
    unfold markAssistanceDelivered
    have hmap : db.assistanceOffers.map (fun o =>
        if o.id == offerId && assistance_update_own db uid o then
          { o with deliveredAt := some now } else o) = db.assistanceOffers := by
      apply map_eq_self_of_eq
      intro a ha
      by_cases hid : a.id = offerId
      · rw [hnone a ha hid]
        simp
      · have hidb : (a.id == offerId) = false := by simp [hid]
        simp [hidb]
    rw [hmap]
  · intro o ho hid hrls
    unfold markAssistanceDelivered
    have hval : (fun x =>
        if x.id == offerId && assistance_update_own db uid x then
          { x with deliveredAt := some now } else x) o = { o with deliveredAt := some now } := by
      simp [hid, hrls]
    rw [← hval]
    exact List.mem_map_of_mem _ ho

/-- C7, witness: actor 4 (not the helping party) changes nothing; the
helping responder 9 sets the delivery timestamp. -/
theorem c7_witness :
    markAssistanceDelivered c7db 4 3 2 = c7db
    ∧ { c7offer with deliveredAt := some 2 } ∈ (markAssistanceDelivered c7db 9 3 2).assistanceOffers :=
  ⟨(c7_delivered_update_scope c7db 4 3 2).1 (by decide),
   (c7_delivered_update_scope c7db 9 3 2).2 c7offer (by decide) (by decide) (by decide)⟩

/-- A fold of `pickLater` lands on a list member or on the initial
accumulator. -/
theorem foldl_pickLater_mem (l : List StatusUpdate) (acc : Option StatusUpdate) (a : StatusUpdate)
    (h : l.foldl pickLater acc = some a) : a ∈ l ∨ acc = some a := by
  induction l generalizing acc with
  | nil => exact Or.inr h
  | cons x xs ih =>
    simp only [List.foldl_cons] at h
    rcases ih (pickLater acc x) h with hx | hacc
    · exact Or.inl (List.mem_cons_of_mem x hx)
    · cases acc with
      | none =>
        simp only [pickLater] at hacc
        have := Option.some.inj hacc
        exact Or.inl (this ▸ List.mem_cons_self x xs)
      | some b =>
        simp only [pickLater] at hacc
        by_cases hlt : b.createdAt < x.createdAt
        · rw [if_pos hlt] at hacc
          have := Option.some.inj hacc
          exact Or.inl (this ▸ List.mem_cons_self x xs)
        · rw [if_neg hlt] at hacc
          exact Or.inr hacc

/-- Appending one row of the barangay folds it in last. -/
theorem latest_append (l : List StatusUpdate) (x : StatusUpdate) (bid : Nat)
    (hx : (x.barangayId == bid) = true) :
    latestStatusUpdate (l ++ [x]) bid = pickLater (latestStatusUpdate l bid) x := by
  unfold latestStatusUpdate
  rw [List.filter_append, List.foldl_append]
  simp [List.filter, hx]

/-- The latest row of a barangay is one of its rows. -/
theorem latest_mem (l : List StatusUpdate) (bid : Nat) (a : StatusUpdate)
    (h : latestStatusUpdate l bid = some a) :
    a ∈ l ∧ (a.barangayId == bid) = true := by
  unfold latestStatusUpdate at h
  rcases foldl_pickLater_mem _ none a h with hm | hacc
  · rw [List.mem_filter] at hm
    exact hm
  · exact absurd hacc (by simp)

/-- A row stamped later than every row of its barangay becomes the
current status. -/
theorem currentStatus_after_append (db : DB) (x : StatusUpdate) (bid : Nat)
    (hxb : x.barangayId = bid)
    (hlat : ∀ u ∈ db.statusUpdates, u.barangayId = bid → u.createdAt < x.createdAt) :
    currentStatus { db with statusUpdates := db.statusUpdates ++ [x] } bid = x.status := by
  unfold currentStatus
  dsimp only
  rw [latest_append db.statusUpdates x bid (by simp [hxb])]
  cases hL : latestStatusUpdate db.statusUpdates bid with
  | none => rfl
  | some a =>
    have hmem := latest_mem db.statusUpdates bid a hL
    have hlt : a.createdAt < x.createdAt := hlat a hmem.1 (by simpa using hmem.2)
    simp only [pickLater]
    rw [if_pos hlt]

/-- C8: inserting a need-set status with a missing description, or one
whose trimmed length is under 5 characters, fails; with a description
of at least 5 characters it succeeds, and when the new row is stamped
later than every existing row of the barangay it becomes the current
status (latest row by creation timestamp). -/
theorem c8_need_description_gate (db : DB) (bid uid newId now : Nat) (st : BrgyStatus)
    (hst : isNeedStatus st = true) :
    (∀ d : String, (sqlTrim d).length < 5 →
        resultOk (updateBarangayStatus db bid st (some d) uid newId now) = false)
    ∧ resultOk (updateBarangayStatus db bid st none uid newId now) = false
    ∧ (∀ d : String, 5 ≤ (sqlTrim d).length →
        resultOk (updateBarangayStatus db bid st (some d) uid newId now) = true
        ∧ ((∀ u ∈ db.statusUpdates, u.barangayId = bid → u.createdAt < now) →
            currentStatusOf (updateBarangayStatus db bid st (some d) uid newId now) bid
              = some st)) := by
  refine ⟨?_, ?_, ?_⟩
  · intro d hd
    simp [updateBarangayStatus, resultOk, hst, hd]
  · simp [updateBarangayStatus, resultOk, hst]
  · intro d hd
    have hdf : (decide ((sqlTrim d).length < 5)) = false := by
      rw [decide_eq_false_iff_not]
      omega
    have heq : updateBarangayStatus db bid st (some d) uid newId now
        = Except.ok { db with statusUpdates := db.statusUpdates ++
            [{ id := newId, barangayId := bid, updatedBy := uid, status := st
               description := some (sqlTrim d), createdAt := now }] } := by
      simp [updateBarangayStatus, hst, hdf]
    refine ⟨by rw [heq]; rfl, ?_⟩
    intro hlat
    rw [heq]
    show some (currentStatus _ bid) = some st
    rw [currentStatus_after_append db _ bid rfl hlat]

/-- C8, witness: for barangay 2 of `c8db` an empty description is
refused, and `Severe flooding on Main St` is accepted and becomes the
current status. -/
theorem c8_witness :
    resultOk (updateBarangayStatus c8db 2 BrgyStatus.active_disaster (some "") 9 411 10) = false
    ∧ resultOk (updateBarangayStatus c8db 2 BrgyStatus.active_disaster
        (some "Severe flooding on Main St") 9 411 10) = true
    ∧ currentStatusOf (updateBarangayStatus c8db 2 BrgyStatus.active_disaster
        (some "Severe flooding on Main St") 9 411 10) 2 = some BrgyStatus.active_disaster := by
  have h := c8_need_description_gate c8db 2 9 411 10 BrgyStatus.active_disaster (by decide)
  exact ⟨h.1 "" (by decide), (h.2.2 "Severe flooding on Main St" (by decide)).1,
         (h.2.2 "Severe flooding on Main St" (by decide)).2 (by decide)⟩

/-- C9, counterexample: `submit_barangay_boundary_request` accepts a
contact email with no at sign and a phone that is not a Philippine
number — both fail the syntactic tests the map UI uses — and still
creates the pending request: the RPC checks only non-emptiness. -/
theorem c9_counterexample :
    isValidEmail "notanemail" = false
    ∧ isValidPhPhone "123" = false
    ∧ (submit_barangay_boundary_request c9db 3 1 none "Tubod" (some 42)
        (some "notanemail") (some "123") none 50).1 = some 50
    ∧ ((submit_barangay_boundary_request c9db 3 1 none "Tubod" (some 42)
        (some "notanemail") (some "123") none 50).2.boundaryRequests.map
          (fun q => (q.id, q.status)))
        = [(50, ReqStatus.pending)] := by
  decide

/-- C9 (amended): `submit_barangay_boundary_request` succeeds exactly
when the caller is LGU-type, the barangay name is non-empty after trim,
the geometry is non-null, and the contact email and phone are non-empty
after trim — no syntactic email or Philippine-phone validation is
performed by the operation (those regex checks exist only in the map UI
before drawing); on failure no request is created, on success the new
request is appended as pending. -/
theorem c9_submit_non_empty_gate (db : DB) (uid mun reqId : Nat) (pB geo : Option Nat)
    (name : String) (email phone desc : Option String) :
    ((submit_barangay_boundary_request db uid mun pB name geo email phone desc reqId).1.isSome
      = (currentUserIsLguType db uid && !(sqlTrim name == "") && geo.isSome
         && sqlTrimNonEmpty email && sqlTrimNonEmpty phone))
    ∧ ((submit_barangay_boundary_request db uid mun pB name geo email phone desc reqId).1 = none →
        (submit_barangay_boundary_request db uid mun pB name geo email phone desc reqId).2 = db)
    ∧ ((submit_barangay_boundary_request db uid mun pB name geo email phone desc reqId).1.isSome = true →
        ((submit_barangay_boundary_request db uid mun pB name geo email phone desc reqId).2.boundaryRequests.getLast?.map
            (fun q => (q.id, q.requestedBy, q.status)))
          = some (reqId, uid, ReqStatus.pending)) := by
  cases h1 : currentUserIsLguType db uid with
  | false => simp [submit_barangay_boundary_request, h1]
  | true =>
    cases h2 : sqlTrim name == "" with
    | true => simp [submit_barangay_boundary_request, h1, h2]
    | false =>
      cases geo with
      | none => simp [submit_barangay_boundary_request, h1, h2]
      | some g =>
        cases h4 : sqlTrimNonEmpty email with
        | false => simp [submit_barangay_boundary_request, h1, h2, h4]
        | true =>
          cases h5 : sqlTrimNonEmpty phone with
          | false => simp [submit_barangay_boundary_request, h1, h2, h4, h5]
          | true =>
            simp [submit_barangay_boundary_request, h1, h2, h4, h5, List.getLast?_concat]

/-- C9, witness: with well-formed non-empty inputs the submission
succeeds and appends a pending request; with an empty name it fails and
leaves the store unchanged. -/
theorem c9_witness :
    ((submit_barangay_boundary_request c9db 3 1 none "Tubod" (some 42)
        (some "cap@dl.ph") (some "09171234567") none 51).2.boundaryRequests.getLast?.map
          (fun q => (q.id, q.requestedBy, q.status))) = some (51, 3, ReqStatus.pending)
    ∧ (submit_barangay_boundary_request c9db 3 1 none "" (some 42)
        (some "cap@dl.ph") (some "09171234567") none 52).2 = c9db :=
  ⟨(c9_submit_non_empty_gate c9db 3 1 51 none (some 42) "Tubod"
      (some "cap@dl.ph") (some "09171234567") none).2.2 (by decide),
   (c9_submit_non_empty_gate c9db 3 1 52 none (some 42) ""
      (some "cap@dl.ph") (some "09171234567") none).2.1 (by decide)⟩

end DisasterLink
